import Mathlib

/-!
Verification development for the awen website downtime notifier.

The definitions below are a shallow embedding of src/index.js and
src/notifiers/pushbullet.js.  Wall-clock timestamps are passed in as the
string parameter `now`, the HTTP GET is passed in as a `ProbeOutcome`
value, and the behaviour of a notifier module is passed in as a function
from channel name to an `Except` result standing for a normal return or a
thrown error / rejected promise.
-/

/-- Result of one HTTP GET probe against the target URL: either a response
carrying its status code, or a thrown network error (timeout, DNS failure,
connection refused) carrying its message string. -/
inductive ProbeOutcome where
  | success (status : Nat)
  | failure (reason : String)
  deriving DecidableEq

/-- Up/down classification of a probe outcome, read off the branch
structure of checkWebsite in src/index.js: up (true) iff a response was
received and its status satisfies 200 <= status < 300; a thrown error or
any other status is down (false). -/
def classify : ProbeOutcome → Bool
  | .success status => decide (200 ≤ status ∧ status < 300)
  | .failure _ => false

/-- The error message observed by the catch block of checkWebsite: for a
non-success status it is the message of the Error thrown at line 127 of
src/index.js, for a network failure it is the message of the thrown error. -/
def caughtMessage : ProbeOutcome → String
  | .success status => "Received non-success status code: " ++ toString status
  | .failure reason => reason

/-- A notification handed to sendNotification: a fresh title and body. -/
structure NotificationEvent where
  title : String
  body : String
  deriving DecidableEq

/-- Title of the recovery notification (src/index.js line 120). -/
def upTitle : String := "✅ Website Back Online"

/-- Title of the outage notification (src/index.js line 136). -/
def downTitle : String := "🚨 Website Down Alert"

/-- Body of the recovery notification (src/index.js line 121). -/
def upBody (url now : String) : String :=
  url ++ " is back up and running as of " ++ now ++ "."

/-- Body of the outage notification (src/index.js line 137). -/
def downBody (url now reason : String) : String :=
  url ++ " appears to be down as of " ++ now ++ ". Error: " ++ reason

/-- Initial value of the isCurrentlyUp state variable (src/index.js
line 70). -/
def initialIsCurrentlyUp : Bool := true

/-- One run of checkWebsite (src/index.js lines 105-141) on the current
isCurrentlyUp value and the probe outcome.  Returns the new isCurrentlyUp
value together with the notification passed to sendNotification, if any.
`now` stands for the wall-clock timestamp string interpolated into the
body. -/
def checkWebsite (url now : String) (isCurrentlyUp : Bool) (o : ProbeOutcome) :
    Bool × Option NotificationEvent :=
  match o with
  | .success status =>
    if 200 ≤ status ∧ status < 300 then
      if isCurrentlyUp then (isCurrentlyUp, none)
      else (true, some ⟨upTitle, upBody url now⟩)
    else
      if isCurrentlyUp then
        (false, some ⟨downTitle, downBody url now (caughtMessage o)⟩)
      else (isCurrentlyUp, none)
  | .failure _ =>
      if isCurrentlyUp then
        (false, some ⟨downTitle, downBody url now (caughtMessage o)⟩)
      else (isCurrentlyUp, none)

/-- Folding checkWebsite over a sequence of probe outcomes, collecting
every emitted notification in order. -/
def runProbes (url now : String) (s : Bool) :
    List ProbeOutcome → Bool × List NotificationEvent
  | [] => (s, [])
  | o :: os =>
    let step := checkWebsite url now s o
    let rest := runProbes url now step.1 os
    (rest.1, step.2.toList ++ rest.2)

/-- Per-channel settings from the notifiers section of config.json: the
enabled flag (absent fields modelled as none, matching the strict
=== true test at src/index.js line 75) and the provider credential used by
src/notifiers/pushbullet.js. -/
structure NotifierSettings where
  enabled : Option Bool := none
  api_key : Option String := none
  deriving DecidableEq

/-- The enabled-channel list built at startup (src/index.js lines 72-79):
the names whose settings have enabled === true, in registry order. -/
def enabledNotifiers (cfgNotifiers : Option (List (String × NotifierSettings))) :
    List String :=
  match cfgNotifiers with
  | none => []
  | some reg => (reg.filter (fun e => e.2.enabled == some true)).map (fun e => e.1)

/-- The notifier modules present under src/notifiers/. -/
def knownNotifiers : List String := ["pushbullet"]

/-- Outcome of one channel dispatch attempt: the send returned normally,
the send threw or rejected (caught at src/index.js line 94), or the
dynamic require of the module at src/index.js line 92 threw because no
such module exists (caught by the same catch). -/
inductive AttemptResult where
  | ok
  | sendErr (msg : String)
  | lookupErr (msg : String)
  deriving DecidableEq

/-- True exactly when the attempt failed at the module lookup step. -/
def AttemptResult.isLookupErr : AttemptResult → Bool
  | .lookupErr _ => true
  | _ => false

/-- Record of one iteration of the dispatch loop: the channel name, the
isCurrentlyUp value passed as fourth argument to send (src/index.js
line 93), the title and body, and how the attempt ended. -/
structure Attempt where
  channel : String
  isUp : Bool
  title : String
  body : String
  result : AttemptResult
  deriving DecidableEq

/-- One iteration of the loop body of sendNotification: require the module
by name, then call its send; any throw from either step is caught and
logged, never re-raised.  `behavior` gives the send result of a module. -/
def attemptChannel (behavior : String → Except String Unit) (isCurrentlyUp : Bool)
    (title body notifier : String) : Attempt :=
  if notifier ∈ knownNotifiers then
    match behavior notifier with
    | .ok _ => ⟨notifier, isCurrentlyUp, title, body, .ok⟩
    | .error e => ⟨notifier, isCurrentlyUp, title, body, .sendErr e⟩
  else
    ⟨notifier, isCurrentlyUp, title, body,
     .lookupErr ("Cannot find module ./notifiers/" ++ notifier)⟩

/-- sendNotification (src/index.js lines 86-98): attempt every enabled
channel in order, each inside its own try/catch, and return the list of
attempts; the function itself always returns normally. -/
def sendNotification (notifiers : List String) (behavior : String → Except String Unit)
    (title body : String) (isCurrentlyUp : Bool) : List Attempt :=
  notifiers.map (attemptChannel behavior isCurrentlyUp title body)

/-- checkWebsite together with the dispatch it triggers: on a transition
the global isCurrentlyUp is assigned first (src/index.js lines 119 and
135) and sendNotification then reads the already-updated value. -/
def checkWebsiteFull (url now : String) (notifiers : List String)
    (behavior : String → Except String Unit) (isCurrentlyUp : Bool)
    (o : ProbeOutcome) : Bool × List Attempt :=
  match checkWebsite url now isCurrentlyUp o with
  | (s, none) => (s, [])
  | (s, some ev) => (s, sendNotification notifiers behavior ev.title ev.body s)

/-- The raw configuration after config.json and the environment overrides
have been merged (src/index.js lines 9-46): absent keys are none. -/
structure RawConfig where
  urlToWatch : Option String := none
  checkIntervalMs : Option Int := none
  notifiers : Option (List (String × NotifierSettings)) := none
  deriving DecidableEq

/-- Error message printed for a bad URL (src/index.js line 52). -/
def urlErrorMsg : String :=
  "Invalid URL_TO_WATCH in config.json. Please provide a valid URL."

/-- Error message printed for a bad interval (src/index.js line 58). -/
def intervalErrorMsg : String :=
  "Invalid CHECK_INTERVAL_MS in config.json. Please provide a positive number."

/-- The URL actually monitored (src/index.js line 50): a missing value
falls back to the placeholder, and so does the empty string since it is
falsy in the source language. -/
def effectiveUrl (c : RawConfig) : String :=
  match c.urlToWatch with
  | some s => if s = "" then "https://example.com" else s
  | none => "https://example.com"

/-- The interval actually used (src/index.js line 56): a missing value
falls back to 60000, and so does 0 since it is falsy in the source
language. -/
def effectiveInterval (c : RawConfig) : Int :=
  match c.checkIntervalMs with
  | some n => if n = 0 then 60000 else n
  | none => 60000

/-- Executable model of the startsWith test at src/index.js line 51:
the second string is a prefix of the first, compared character by
character. -/
def strStartsWith (s p : String) : Bool :=
  p.data.isPrefixOf s.data

/-- The startup validation of src/index.js lines 48-65: report a bad URL
or a non-positive interval and stop module evaluation, otherwise proceed
with the effective URL and interval.  The notifiers section is only
checked to be an object there; channel names are never inspected. -/
def validateConfig (c : RawConfig) : Except String (String × Int) :=
  if strStartsWith (effectiveUrl c) ("http") then
    if effectiveInterval c ≤ 0 then Except.error intervalErrorMsg
    else Except.ok (effectiveUrl c, effectiveInterval c)
  else Except.error urlErrorMsg

/-- The NOTIFIERS environment override (src/index.js lines 30-46): when
the variable holds a JSON object, every listed channel is marked enabled
and the object replaces the notifiers section of config.json wholesale. -/
def applyNotifiersEnv (cfgNotifiers : Option (List (String × NotifierSettings)))
    (envNotifiers : Option (List (String × NotifierSettings))) :
    Option (List (String × NotifierSettings)) :=
  match envNotifiers with
  | none => cfgNotifiers
  | some reg => some (reg.map (fun e => (e.1, { e.2 with enabled := some true })))

/-- The outbound request built by src/notifiers/pushbullet.js lines 5-14. -/
structure PushbulletRequest where
  endpoint : String
  noteType : String
  title : String
  body : String
  accessToken : String
  deriving DecidableEq

set_option linter.unusedVariables false in
/-- send from src/notifiers/pushbullet.js: fires the POST, attaches a then
and a catch handler to its promise, and returns at once.  `postResult` is
the eventual provider response.  The first component is what the caller
can observe (always a normal return, since the rejection is consumed by
the catch handler); the second is the request, the third the log line the
handlers print. -/
def pushbulletSend (cfg : NotifierSettings) (title body : String)
    (isCurrentlyUp : Bool) (postResult : Except String String) :
    Except String Unit × PushbulletRequest × String :=
  (Except.ok (),
   { endpoint := "https://api.pushbullet.com/v2/pushes",
     noteType := "note",
     title := title,
     body := body,
     accessToken := (cfg.api_key).getD "" },
   match postResult with
   | .ok d => "Pushbullet notification sent successfully: " ++ d
   | .error e => "Error sending Pushbullet notification: " ++ e)

/-- The notification content a transition produces, fixed by its
direction. -/
def transitionEvent (url now : String) (o : ProbeOutcome) : NotificationEvent :=
  if classify o then ⟨upTitle, upBody url now⟩
  else ⟨downTitle, downBody url now (caughtMessage o)⟩

/-- Canonical form of one checkWebsite run: the new state is always the
classification of the outcome, and a notification appears exactly when the
classification differs from the old state, its content fixed by the
direction of the transition. -/
theorem checkWebsite_eq (url now : String) (s : Bool) (o : ProbeOutcome) :
    checkWebsite url now s o =
      (classify o,
       if classify o = s then none else some (transitionEvent url now o)) := by
  cases o with
  | success status =>
    by_cases h : 200 ≤ status ∧ status < 300 <;> cases s <;>
      simp [checkWebsite, classify, transitionEvent, h]
  | failure reason => cases s <;> simp [checkWebsite, classify, transitionEvent]

/-- If every outcome in a sequence classifies to the current state, the
whole run is silent and the state never moves. -/
theorem runProbes_steady (url now : String) (c : Bool) (os : List ProbeOutcome)
    (h : ∀ o ∈ os, classify o = c) : runProbes url now c os = (c, []) := by
  induction os with
  | nil => rfl
  | cons o os ih =>
    have hc : classify o = c := h o (List.mem_cons_self o os)
    have ht : ∀ x ∈ os, classify x = c := fun x hx => h x (List.mem_cons_of_mem o hx)
    simp [runProbes, checkWebsite_eq, hc, ih ht]

/-- Claim C1: on every probe a notification is dispatched iff the
classification of the outcome differs from the availability state
immediately before it, the stored state afterwards equals that
classification, and over any sequence of probes whose outcomes all share
one classification at most one notification is ever emitted. -/
theorem notification_iff_transition :
    (∀ (url now : String) (s : Bool) (o : ProbeOutcome),
        ((checkWebsite url now s o).2.isSome ↔ classify o ≠ s)
        ∧ (checkWebsite url now s o).1 = classify o)
    ∧ (∀ (url now : String) (s c : Bool) (os : List ProbeOutcome),
        (∀ o ∈ os, classify o = c) →
        (runProbes url now s os).2.length ≤ 1) := by
  constructor
  · intro url now s o
    rw [checkWebsite_eq]
    by_cases h : classify o = s <;> simp [h]
  · intro url now s c os h
    cases os with
    | nil => simp [runProbes]
    | cons o os =>
      have hc : classify o = c := h o (List.mem_cons_self o os)
      have ht : ∀ x ∈ os, classify x = c := fun x hx => h x (List.mem_cons_of_mem o hx)
      have hrest : runProbes url now (classify o) os = (c, []) := by
        rw [hc]
        exact runProbes_steady url now c os ht
      simp only [runProbes, checkWebsite_eq, hrest]
      by_cases hs : classify o = s <;> simp [hs]

/-- Claim C1 witness: two consecutive successful probes from the down
state emit at most one notification. -/
theorem notification_iff_transition_witness :
    (runProbes ("https://example.com") ("T") false
      [ProbeOutcome.success 200, ProbeOutcome.success 204]).2.length ≤ 1 :=
  notification_iff_transition.2 ("https://example.com") ("T") false true
    [ProbeOutcome.success 200, ProbeOutcome.success 204] (by decide)

/-- Claim C2: a probe classifies up iff a response arrived with status in
the interval from 200 up to but excluding 300; every thrown error (timeout
included) classifies down, and the down notification carries the reason
string of the failure, so a timeout is reported with its timeout reason. -/
theorem classify_spec :
    (∀ status : Nat,
        classify (ProbeOutcome.success status) = true ↔ 200 ≤ status ∧ status < 300)
    ∧ (∀ reason : String, classify (ProbeOutcome.failure reason) = false)
    ∧ (∀ url now reason : String,
        checkWebsite url now true (ProbeOutcome.failure reason)
          = (false, some ⟨downTitle, downBody url now reason⟩)) := by
  refine ⟨fun status => ?_, fun reason => rfl, fun url now reason => rfl⟩
  simp [classify]

/-- The isCurrentlyUp value handed to a channel send is the one the
dispatcher received. -/
theorem attemptChannel_isUp (behavior : String → Except String Unit) (u : Bool)
    (t b n : String) : (attemptChannel behavior u t b n).isUp = u := by
  unfold attemptChannel
  split
  · cases behavior n <;> rfl
  · rfl

/-- Dispatching never renames a channel: the attempt records the name it
was given. -/
theorem attemptChannel_channel (behavior : String → Except String Unit) (u : Bool)
    (t b n : String) : (attemptChannel behavior u t b n).channel = n := by
  unfold attemptChannel
  split
  · cases behavior n <;> rfl
  · rfl

/-- sendNotification attempts exactly the channels it is given, in
order, whatever the channel behaviours do. -/
theorem sendNotification_channels (ns : List String)
    (behavior : String → Except String Unit) (t b : String) (u : Bool) :
    (sendNotification ns behavior t b u).map Attempt.channel = ns := by
  induction ns with
  | nil => rfl
  | cons n ns ih =>
    simp only [sendNotification, List.map_cons] at ih ⊢
    rw [attemptChannel_channel, ih]

/-- Every attempt of one dispatch sees the same isCurrentlyUp value, the
one passed to sendNotification. -/
theorem sendNotification_isUp (ns : List String)
    (behavior : String → Except String Unit) (t b : String) (u : Bool) :
    (sendNotification ns behavior t b u).all (fun a => a.isUp == u) = true := by
  rw [List.all_eq_true]
  intro a ha
  obtain ⟨n, hn, rfl⟩ := List.mem_map.mp ha
  simp [attemptChannel_isUp]

/-- Claim C3: after any probe the stored availability state equals the
classification of that probe, whatever the channel behaviours do (a
failing dispatch cannot move it back, and every failure is caught so the
probe loop never crashes), and every channel send of the triggered
dispatch already observes the updated state, showing the state was
assigned before the dispatcher ran. -/
theorem state_updated_before_dispatch :
    ∀ (url now : String) (ns : List String) (behavior : String → Except String Unit)
      (s : Bool) (o : ProbeOutcome),
      (checkWebsiteFull url now ns behavior s o).1 = classify o
      ∧ ((checkWebsiteFull url now ns behavior s o).2.all
          (fun a => a.isUp == classify o)) = true := by
  intro url now ns behavior s o
  unfold checkWebsiteFull
  rw [checkWebsite_eq]
  by_cases h : classify o = s
  · rw [if_pos h]
    exact ⟨rfl, rfl⟩
  · rw [if_neg h]
    exact ⟨rfl, sendNotification_isUp ns behavior _ _ (classify o)⟩

/-- Claim C4: the availability state starts out optimistic, and a first
probe that classifies down therefore emits exactly one notification, the
down alert, whose title is the string Website Down Alert prefixed by the
alert glyph. -/
theorem first_probe_down_alert :
    initialIsCurrentlyUp = true
    ∧ (∀ (url now : String) (o : ProbeOutcome), classify o = false →
        checkWebsite url now initialIsCurrentlyUp o
          = (false, some ⟨downTitle, downBody url now (caughtMessage o)⟩))
    ∧ downTitle = "🚨 " ++ ("Website Down Alert") := by
  refine ⟨rfl, fun url now o h => ?_, by decide⟩
  rw [checkWebsite_eq, h]
  simp [initialIsCurrentlyUp, transitionEvent, h]

/-- Claim C4 witness: a first probe answered with status 503 emits the
down alert. -/
theorem first_probe_down_alert_witness :
    checkWebsite ("https://example.com") ("T") initialIsCurrentlyUp
        (ProbeOutcome.success 503)
      = (false, some ⟨downTitle, downBody ("https://example.com") ("T")
          (caughtMessage (ProbeOutcome.success 503))⟩) :=
  first_probe_down_alert.2.1 ("https://example.com") ("T") (ProbeOutcome.success 503)
    (by decide)

/-- Claim C5: even when the send of channel k throws or rejects, every
channel handed to the dispatcher is still attempted exactly once, in
order, and the dispatcher returns its attempt list normally instead of
propagating the failure to the monitor. -/
theorem dispatch_survives_channel_failure :
    ∀ (ns : List String) (behavior : String → Except String Unit) (t b : String)
      (u : Bool) (k : Nat) (hk : k < ns.length) (e : String),
      behavior (ns.get ⟨k, hk⟩) = Except.error e →
      (sendNotification ns behavior t b u).map Attempt.channel = ns
      ∧ (sendNotification ns behavior t b u).length = ns.length := by
  intro ns behavior t b u k hk e hfail
  refine ⟨sendNotification_channels ns behavior t b u, ?_⟩
  simp [sendNotification]

/-- Claim C5 witness: with two channels and sends that always throw, both
channels are still attempted once each. -/
theorem dispatch_survives_channel_failure_witness :
    (sendNotification ["pushbullet", "slack"] (fun _ => Except.error ("boom"))
        ("t") ("b") true).map Attempt.channel = ["pushbullet", "slack"]
    ∧ (sendNotification ["pushbullet", "slack"] (fun _ => Except.error ("boom"))
        ("t") ("b") true).length = (["pushbullet", "slack"] : List String).length :=
  dispatch_survives_channel_failure ["pushbullet", "slack"]
    (fun _ => Except.error ("boom")) ("t") ("b") true 0 (by decide) ("boom") rfl

/-- Configuration naming a channel that matches no module under
src/notifiers/, with that channel enabled. -/
def cfgUnknownChannel : RawConfig :=
  { urlToWatch := some ("https://example.com"),
    checkIntervalMs := some 60000,
    notifiers := some [("slack", { enabled := some true, api_key := none })] }

/-- Claim C6 counterexample: startup validation accepts a configuration
whose registry names the unknown channel slack and enables it, and a
dispatch then performs the by-name module lookup which fails at dispatch
time; so the unknown name is not surfaced at startup and the lookup can
fail per dispatch. -/
theorem unknown_channel_fails_at_dispatch :
    validateConfig cfgUnknownChannel = Except.ok ("https://example.com", 60000)
    ∧ enabledNotifiers cfgUnknownChannel.notifiers = ["slack"]
    ∧ sendNotification ["slack"] (fun _ => Except.ok ()) ("t") ("b") false
        = [{ channel := "slack", isUp := false, title := "t", body := "b",
             result := AttemptResult.lookupErr
               ("Cannot find module ./notifiers/slack") }] :=
  ⟨rfl, rfl, rfl⟩

/-- An attempted channel is either a known module or its attempt ended in
a failure of the by-name lookup. -/
theorem attemptChannel_known_or_lookup (behavior : String → Except String Unit)
    (u : Bool) (t b n : String) :
    (decide ((attemptChannel behavior u t b n).channel ∈ knownNotifiers)
      || (attemptChannel behavior u t b n).result.isLookupErr) = true := by
  rw [attemptChannel_channel]
  by_cases h : n ∈ knownNotifiers
  · simp [h]
  · have hres : (attemptChannel behavior u t b n).result
        = AttemptResult.lookupErr ("Cannot find module ./notifiers/" ++ n) := by
      unfold attemptChannel
      rw [if_neg h]
    simp [h, hres, AttemptResult.isLookupErr]

/-- Claim C6 amended: channel names are never inspected at startup (a
registry with any names passes validation whenever URL and interval do),
and instead every dispatch performs a per-channel by-name module lookup
at dispatch time: each attempt either hits a known module or records a
lookup failure, while every listed channel is still attempted. -/
theorem unknown_channel_amended :
    (∀ reg : List (String × NotifierSettings),
        validateConfig { urlToWatch := some ("https://example.com"),
                         checkIntervalMs := some 60000, notifiers := some reg }
          = Except.ok ("https://example.com", 60000))
    ∧ (∀ (ns : List String) (behavior : String → Except String Unit)
        (t b : String) (u : Bool),
        (sendNotification ns behavior t b u).map Attempt.channel = ns
        ∧ (sendNotification ns behavior t b u).all
            (fun a => decide (a.channel ∈ knownNotifiers) || a.result.isLookupErr)
            = true) := by
  refine ⟨fun reg => rfl, fun ns behavior t b u =>
    ⟨sendNotification_channels ns behavior t b u, ?_⟩⟩
  rw [List.all_eq_true]
  intro a ha
  obtain ⟨n, hn, rfl⟩ := List.mem_map.mp ha
  exact attemptChannel_known_or_lookup behavior u t b n

/-- Claim C7 counterexample: a configuration that omits the target URL
entirely passes startup validation, because the missing URL is silently
replaced by the placeholder default instead of being rejected. -/
theorem missing_url_accepted :
    validateConfig { urlToWatch := none, checkIntervalMs := some 5000,
                     notifiers := none }
      = Except.ok ("https://example.com", 5000) := rfl

/-- Claim C7 amended: a missing target URL is replaced by the placeholder
default rather than rejected (validation behaves exactly as if the
placeholder had been configured), and a configured zero interval is
replaced by 60000; startup reports an error and stops before monitoring
starts exactly when the effective URL does not start with http or the
effective interval is non-positive (hence for any negative configured
interval). -/
theorem config_validation_amended :
    (∀ (i : Option Int) (reg : Option (List (String × NotifierSettings))),
        validateConfig { urlToWatch := none, checkIntervalMs := i, notifiers := reg }
          = validateConfig { urlToWatch := some ("https://example.com"),
                             checkIntervalMs := i, notifiers := reg })
    ∧ (∀ c : RawConfig, strStartsWith (effectiveUrl c) ("http") = false →
        validateConfig c = Except.error urlErrorMsg)
    ∧ (∀ c : RawConfig, strStartsWith (effectiveUrl c) ("http") = true →
        effectiveInterval c ≤ 0 → validateConfig c = Except.error intervalErrorMsg)
    ∧ (∀ c : RawConfig, c.checkIntervalMs = some 0 → effectiveInterval c = 60000) := by
  refine ⟨fun i reg => rfl, fun c h => ?_, fun c h1 h2 => ?_, fun c h => ?_⟩
  · simp [validateConfig, h]
  · simp [validateConfig, h1, h2]
  · simp [effectiveInterval, h]

/-- Claim C7 amended witness: an ftp URL is rejected, a negative interval
is rejected, and a zero interval is replaced by the default. -/
theorem config_validation_amended_witness :
    validateConfig { urlToWatch := some ("ftp://example.com"),
                     checkIntervalMs := some 1000, notifiers := none }
      = Except.error urlErrorMsg
    ∧ validateConfig { urlToWatch := some ("https://example.com"),
                       checkIntervalMs := some (-5), notifiers := none }
      = Except.error intervalErrorMsg
    ∧ effectiveInterval { urlToWatch := some ("https://example.com"),
                          checkIntervalMs := some 0, notifiers := none } = 60000 :=
  ⟨config_validation_amended.2.1 _ (by decide),
   config_validation_amended.2.2.1 _ (by decide) (by decide),
   config_validation_amended.2.2.2 _ rfl⟩

/-- Claim C8: when no registry entry has enabled set to true, the enabled
list built at startup is empty and a dispatch performs no channel
attempts at all, returning normally. -/
theorem notify_zero_channels :
    ∀ (reg : List (String × NotifierSettings)) (behavior : String → Except String Unit)
      (t b : String) (u : Bool),
      (∀ e ∈ reg, ¬ e.2.enabled = some true) →
      enabledNotifiers (some reg) = []
      ∧ sendNotification (enabledNotifiers (some reg)) behavior t b u = [] := by
  intro reg behavior t b u h
  have he : enabledNotifiers (some reg) = [] := by
    have hf : reg.filter (fun e => e.2.enabled == some true) = [] := by
      rw [List.filter_eq_nil_iff]
      intro e hmem
      simpa using h e hmem
    show (reg.filter (fun e => e.2.enabled == some true)).map (fun e => e.1) = []
    rw [hf]
    rfl
  exact ⟨he, by rw [he]; rfl⟩

/-- Claim C8 witness: a registry whose only channel is disabled yields an
empty enabled list and a dispatch with no attempts. -/
theorem notify_zero_channels_witness :
    enabledNotifiers (some [("pushbullet",
        { enabled := some false, api_key := some ("k") })]) = []
    ∧ sendNotification (enabledNotifiers (some [("pushbullet",
        { enabled := some false, api_key := some ("k") })]))
        (fun _ => Except.ok ()) ("t") ("b") true = [] :=
  notify_zero_channels [("pushbullet", { enabled := some false, api_key := some ("k") })]
    (fun _ => Except.ok ()) ("t") ("b") true (by decide)

/-- Claim C9: the pushbullet send returns to its caller before the
provider answers and consumes both success and failure internally: the
caller-visible result is a normal return whatever the provider does, and
the request built is likewise independent of the provider result, so the
dispatcher cannot observe whether the send succeeded. -/
theorem pushbullet_send_silent :
    ∀ (cfg : NotifierSettings) (t b : String) (u : Bool)
      (r1 r2 : Except String String),
      (pushbulletSend cfg t b u r1).1 = Except.ok ()
      ∧ (pushbulletSend cfg t b u r1).1 = (pushbulletSend cfg t b u r2).1
      ∧ (pushbulletSend cfg t b u r1).2.1 = (pushbulletSend cfg t b u r2).2.1 :=
  fun _ _ _ _ _ _ => ⟨rfl, rfl, rfl⟩

/-- Claim C10: the NOTIFIERS environment object replaces the configured
registry wholesale: the result keeps its channel names and order, every
listed channel ends up with enabled set to true whatever flags the object
itself carried, and the previous notifiers section has no influence on
the result. -/
theorem notifiers_env_forces_enabled :
    ∀ (cfgNotifiers cfgNotifiersB : Option (List (String × NotifierSettings)))
      (reg : List (String × NotifierSettings)),
      applyNotifiersEnv cfgNotifiers (some reg)
        = some (reg.map (fun e => (e.1, { e.2 with enabled := some true })))
      ∧ ((applyNotifiersEnv cfgNotifiers (some reg)).getD []).map Prod.fst
          = reg.map Prod.fst
      ∧ ((applyNotifiersEnv cfgNotifiers (some reg)).getD []).all
          (fun e => e.2.enabled == some true) = true
      ∧ applyNotifiersEnv cfgNotifiers (some reg)
          = applyNotifiersEnv cfgNotifiersB (some reg) := by
  intro c1 c2 reg
  refine ⟨rfl, ?_, ?_, rfl⟩
  · simp [applyNotifiersEnv]
  · rw [List.all_eq_true]
    intro e he
    simp only [applyNotifiersEnv, Option.getD_some] at he
    obtain ⟨x, hx, rfl⟩ := List.mem_map.mp he
    rfl

